import Mathlib

/-!
Verification of the comment-bubble python backend (src/python-backend).

The record store (`record.py`), the table initialisation (`init.py`) and the
HTTP route handlers (`app.py`) are shallowly embedded below.  The sqlite
database is modelled as an explicit state `DB`: the `comments` table is a list
of rows kept in insertion order together with the AUTOINCREMENT counter
`nextId` (sqlite assigns `nextId` to a fresh row and never reuses ids after a
DELETE), and the `login` table is a list of username/password-hash pairs.
`SELECT ... ORDER BY id DESC` is modelled by an insertion sort on the id, in
descending order.  The cookie session is modelled by its `user` entry, an
`Option SessionData`; the route handlers return the JSON envelope (or, for one
branch of the purge route, a redirect) together with the updated state.
-/

namespace CommentBubble

/-- A row of the `comments` table (`init.make_comments`): an AUTOINCREMENT
integer primary key and the comment text. -/
structure Row where
  id : Nat
  text : String
  deriving DecidableEq

/-- The sqlite database state: the `comments` table in insertion order, the
AUTOINCREMENT counter for `comments.id`, and the `login` table of
username/password pairs. -/
structure DB where
  comments : List Row
  nextId : Nat
  login : List (String × String)
  deriving DecidableEq

/-- `record.create_record`: `INSERT INTO comments (text) VALUES (?)`.  The new
row receives the next AUTOINCREMENT id. -/
def create_record (comment_text : String) (db : DB) : DB :=
  { db with
    comments := db.comments ++ [⟨db.nextId, comment_text⟩]
    nextId := db.nextId + 1 }

/-- `record.purge_all_records`: `DELETE FROM comments`.  A plain DELETE does
not reset the sqlite AUTOINCREMENT counter. -/
def purge_all_records (db : DB) : DB :=
  { db with comments := [] }

/-- One step of the descending insertion sort modelling `ORDER BY id DESC`:
insert `r` in front of the first element whose id is not larger. -/
def insertDesc (r : Row) : List Row → List Row
  | [] => [r]
  | x :: xs => if x.id ≤ r.id then r :: x :: xs else x :: insertDesc r xs

/-- Sort rows by id in descending order (model of `ORDER BY id DESC`). -/
def insertionSortDesc : List Row → List Row
  | [] => []
  | x :: xs => insertDesc x (insertionSortDesc xs)

/-- `record.get_all_records`: `SELECT text FROM comments ORDER BY id DESC`,
projected to the text column. -/
def get_all_records (db : DB) : List String :=
  (insertionSortDesc db.comments).map Row.text

/-- The default seeded argon2id hash of the password `password`
(`init.make_login`). -/
def default_password_hash : String :=
  "$argon2id$v=19$m=102400,t=2,p=8$l7bMrtz82jfIJk5Uq82mGQ$1ABNbzjrDJ6WPNnhGi5UpQ"

/-- `init.make_comments`: `DROP TABLE IF EXISTS comments` then `CREATE TABLE`.
Dropping the table also drops its `sqlite_sequence` entry, so the
AUTOINCREMENT counter restarts at 1. -/
def make_comments (db : DB) : DB :=
  { db with comments := [], nextId := 1 }

/-- `init.make_login`: `DROP TABLE IF EXISTS login`, `CREATE TABLE`, then
insert the single default credential row `admin` with the seeded hash. -/
def make_login (db : DB) : DB :=
  { db with login := [("admin", default_password_hash)] }

/-- The parsed `Authorization` header as handed over by `HTTPBearer`
(`fastapi.security.HTTPAuthorizationCredentials`). -/
structure HTTPAuthorizationCredentials where
  scheme : String
  credentials : String
  deriving DecidableEq

/-- `app.verify_bearer_token`: true iff credentials were supplied, the scheme
is `Bearer`, and the credential string equals the configured `BEARER_TOKEN`
(`os.getenv` may return `None`, hence the `Option`; comparing a string with
`None` in python yields `False`). -/
def verify_bearer_token (credentials : Option HTTPAuthorizationCredentials)
    (BEARER_TOKEN : Option String) : Bool :=
  match credentials with
  | some c => c.scheme == "Bearer" && some c.credentials == BEARER_TOKEN
  | none => false

/-- `app.SessionData`: the pydantic model stored under the session key
`user`. -/
structure SessionData where
  permitted : Bool
  deriving DecidableEq

/-- The `user` entry of the cookie session: `none` models an absent key
(`session.pop` removes it, `session.get` falls back to a default). -/
abbrev SessionUser := Option SessionData

/-- The JSON payload of the `data` field of the uniform envelope. -/
inductive Json where
  | null
  | records (rs : List String)
  deriving DecidableEq

/-- A route handler result: either a JSON envelope
`(status, message, data)` or a `RedirectResponse(url, status_code)`. -/
inductive Response where
  | json (status : Bool) (message : String) (data : Json)
  | redirect (url : String) (code : Nat)
  deriving DecidableEq

/-- `app.status_route` (`GET /status`). -/
def status_route : Response :=
  Response.json true "It is alive!" Json.null

/-- `app.logout_route` (`POST /logout`): pop the `user` key and report
success. -/
def logout_route (session_user : SessionUser) : Response × SessionUser :=
  (Response.json true "Logged out!" Json.null, none)

/-- `app.login_route` (`POST /login`).  `is_permitted` is the credential
verification from `cred.py` (not part of src; the routes only use its boolean
outcome, so it is passed as a parameter).  On failure the `user` key is
popped; on success it is set to `SessionData(permitted=True)`. -/
def login_route (is_permitted : String → String → Bool)
    (username password : String) (session_user : SessionUser) :
    Response × SessionUser :=
  if !(is_permitted username password) then
    (Response.json false "Invalid credentials!" Json.null, none)
  else
    (Response.json true "Logged in!" Json.null, some ⟨true⟩)

/-- `app.check_user_route` (`GET /admin_check`): read the `user` session
entry, defaulting to `permitted = False`. -/
def check_user_route (session_user : SessionUser) : Response :=
  let session_data := session_user.getD ⟨false⟩
  if !session_data.permitted then
    Response.json false "Log in first!" Json.null
  else
    Response.json true "User permitted!" Json.null

/-- Modelled from the spec: `cred.change_cred` — `cred.py` is not under src,
only its call site in `app.py` is.  Spec 4.1: `rotate(new_plaintext_password)`
recomputes and stores a new hash for the single credential row, in place.  The
hash computation (argon2) is abstracted as the parameter `hash`. -/
def change_cred (hash : String → String) (new_pass : String) (db : DB) : DB :=
  { db with login := db.login.map fun row => (row.1, hash new_pass) }

/-- `app.change_pass_route` (`POST /change_pass`): guarded by
`bypass or session permitted`; rejects with the `status:false` envelope,
otherwise rotates the credential. -/
def change_pass_route (hash : String → String) (new_pass : String)
    (bypass : Bool) (session_user : SessionUser) (db : DB) : Response × DB :=
  let session_data := session_user.getD ⟨false⟩
  if !(bypass || session_data.permitted) then
    (Response.json false "Login first!" Json.null, db)
  else
    (Response.json true "Password changed!" Json.null, change_cred hash new_pass db)

/-- `app.create_record_route` (`POST /create_record`): open endpoint, stores
the text as-is. -/
def create_record_route (comment_text : String) (db : DB) : Response × DB :=
  (Response.json true "Comment created!" Json.null, create_record comment_text db)

/-- `app.get_all_records_route` (`GET /get_all_records`). -/
def get_all_records_route (db : DB) : Response :=
  Response.json true "Success!" (Json.records (get_all_records db))

/-- `app.purge_all_records_route` (`DELETE /purge_all_records`): guarded by
`bypass or session permitted`; the reject branch returns
`RedirectResponse(url="/login/", status_code=302)`, not a JSON envelope. -/
def purge_all_records_route (bypass : Bool) (session_user : SessionUser)
    (db : DB) : Response × DB :=
  let session_data := session_user.getD ⟨false⟩
  if !(bypass || session_data.permitted) then
    (Response.redirect "/login/" 302, db)
  else
    (Response.json true "All records deleted!" Json.null, purge_all_records db)

/-- A sequence of N insertions through `create_record`, oldest first. -/
def runInserts (ts : List String) (db : DB) : DB :=
  ts.foldl (fun d t => create_record t d) db

/-- The rows produced by inserting `ts` starting at AUTOINCREMENT value
`n`. -/
def rowsFrom : Nat → List String → List Row
  | _, [] => []
  | n, t :: ts => ⟨n, t⟩ :: rowsFrom (n + 1) ts

/-- An empty database state, used only to instantiate witnesses. -/
def emptyDB : DB :=
  ⟨[], 0, []⟩

/-!  Helper lemmas about the descending sort and insertion runs.  -/

theorem insertDesc_of_lt (r : Row) (l : List Row) (h : ∀ x ∈ l, r.id < x.id) :
    insertDesc r l = l ++ [r] := by
  induction l with
  | nil => rfl
  | cons x xs ih =>
    have hx : r.id < x.id := h x (by simp)
    have hnot : ¬ x.id ≤ r.id := by omega
    simp only [insertDesc, if_neg hnot, List.cons_append]
    rw [ih fun y hy => h y (by simp [hy])]

theorem insertionSortDesc_of_pairwise (l : List Row)
    (h : l.Pairwise fun a b => a.id < b.id) :
    insertionSortDesc l = l.reverse := by
  induction l with
  | nil => rfl
  | cons x xs ih =>
    rw [insertionSortDesc, ih (List.Pairwise.of_cons h)]
    have hall : ∀ y ∈ xs.reverse, x.id < y.id := by
      intro y hy
      exact (List.pairwise_cons.mp h).1 y (List.mem_reverse.mp hy)
    rw [insertDesc_of_lt x _ hall, List.reverse_cons]

theorem insertionSortDesc_append_max (l : List Row) (r : Row)
    (h : ∀ x ∈ l, x.id < r.id) :
    insertionSortDesc (l ++ [r]) = r :: insertionSortDesc l := by
  induction l with
  | nil => rfl
  | cons x xs ih =>
    have hx : x.id < r.id := h x (by simp)
    have hnot : ¬ r.id ≤ x.id := by omega
    rw [List.cons_append, insertionSortDesc,
      ih fun y hy => h y (by simp [hy]), insertDesc, if_neg hnot,
      insertionSortDesc]

theorem rowsFrom_id_ge (ts : List String) :
    ∀ n, ∀ r ∈ rowsFrom n ts, n ≤ r.id := by
  induction ts with
  | nil => intro n r hr; simp [rowsFrom] at hr
  | cons t ts ih =>
    intro n r hr
    simp only [rowsFrom, List.mem_cons] at hr
    rcases hr with rfl | hr
    · exact Nat.le_refl n
    · exact Nat.le_of_succ_le (ih (n + 1) r hr)

theorem rowsFrom_pairwise (ts : List String) :
    ∀ n, (rowsFrom n ts).Pairwise fun a b => a.id < b.id := by
  induction ts with
  | nil => intro n; simp [rowsFrom]
  | cons t ts ih =>
    intro n
    refine List.pairwise_cons.mpr ⟨?_, ih (n + 1)⟩
    intro y hy
    exact Nat.lt_of_succ_le (rowsFrom_id_ge ts (n + 1) y hy)

theorem rowsFrom_map_text (ts : List String) :
    ∀ n, (rowsFrom n ts).map Row.text = ts := by
  induction ts with
  | nil => intro n; rfl
  | cons t ts ih => intro n; simp [rowsFrom, ih (n + 1)]

theorem runInserts_eq (ts : List String) :
    ∀ db : DB,
      runInserts ts db =
        ⟨db.comments ++ rowsFrom db.nextId ts, db.nextId + ts.length, db.login⟩ := by
  induction ts with
  | nil => intro db; simp [runInserts, rowsFrom]
  | cons t ts ih =>
    intro db
    show runInserts ts (create_record t db) = _
    rw [ih (create_record t db)]
    simp [create_record, rowsFrom, DB.mk.injEq, List.append_assoc]
    omega

/-!  Claim theorems.  -/

/-- Claim C2: every call to `make_login` leaves the login table with exactly
one credential row, whose username is `admin`, replacing whatever login rows
were stored before (the table is dropped and recreated on every call). -/
theorem make_login_seeds_single_admin_row (db : DB) :
    (make_login db).login.length = 1 ∧
    (make_login db).login = [("admin", default_password_hash)] :=
  ⟨rfl, rfl⟩

/-- Claim C3: inserting a sequence `ts` of N texts via `create_record` into a
freshly created comments table and then calling `get_all_records` yields
exactly N elements, one per inserted record, newest first (the reverse of the
insertion order), and the rows listed are in strictly descending order of
their assigned ids. -/
theorem inserts_then_list_descending (ts : List String) (db : DB) :
    get_all_records (runInserts ts (make_comments db)) = ts.reverse ∧
    (get_all_records (runInserts ts (make_comments db))).length = ts.length ∧
    (insertionSortDesc (runInserts ts (make_comments db)).comments).Pairwise
      (fun a b => b.id < a.id) := by
  have hrun : runInserts ts (make_comments db) =
      ⟨rowsFrom 1 ts, 1 + ts.length, db.login⟩ := by
    rw [runInserts_eq]; simp [make_comments]
  have hpw := rowsFrom_pairwise ts 1
  have hsort : insertionSortDesc (rowsFrom 1 ts) = (rowsFrom 1 ts).reverse :=
    insertionSortDesc_of_pairwise _ hpw
  have h1 : get_all_records (runInserts ts (make_comments db)) = ts.reverse := by
    rw [hrun]
    show (insertionSortDesc (rowsFrom 1 ts)).map Row.text = ts.reverse
    rw [hsort, List.map_reverse, rowsFrom_map_text]
  refine ⟨h1, by rw [h1]; simp, ?_⟩
  rw [hrun]
  show (insertionSortDesc (rowsFrom 1 ts)).Pairwise fun a b => b.id < a.id
  rw [hsort]
  exact List.pairwise_reverse.mpr hpw

/-- Claim C4: after `purge_all_records`, `get_all_records` returns the empty
sequence, whatever sequence of insertions happened before. -/
theorem purge_then_list_empty (ts : List String) (db : DB) :
    get_all_records (purge_all_records (runInserts ts db)) = [] :=
  rfl

/-- Claim C5: for every string `t` (the empty string included; the store
accepts the text as-is), `create_record t` followed immediately by
`get_all_records` yields a sequence whose first, newest element is exactly
`t`.  The hypothesis is the AUTOINCREMENT invariant of the store: every
stored id is below the counter. -/
theorem create_then_list_head (t : String) (db : DB)
    (h : ∀ r ∈ db.comments, r.id < db.nextId) :
    (get_all_records (create_record t db)).head? = some t ∧
    get_all_records (create_record t db) = t :: get_all_records db := by
  have hmain : get_all_records (create_record t db) = t :: get_all_records db := by
    show (insertionSortDesc (db.comments ++ [⟨db.nextId, t⟩])).map Row.text = _
    rw [insertionSortDesc_append_max db.comments ⟨db.nextId, t⟩ h]
    rfl
  exact ⟨by rw [hmain]; rfl, hmain⟩

/-- Witness for C5 at a concrete store. -/
theorem create_then_list_head_witness :
    (∀ r ∈ emptyDB.comments, r.id < emptyDB.nextId) ∧
    ((get_all_records (create_record "hi" emptyDB)).head? = some "hi" ∧
      get_all_records (create_record "hi" emptyDB) = "hi" :: get_all_records emptyDB) :=
  ⟨by decide, create_then_list_head "hi" emptyDB (by decide)⟩

/-- Claim C6: `purge_all_records` is idempotent — purging twice leaves the
same state as purging once — and the purge route reports success with the
`status:true` envelope even when the store is already empty (here: an
authorized request on a just-purged store). -/
theorem purge_idempotent_and_reports_success (db : DB) (s : SessionUser) :
    purge_all_records (purge_all_records db) = purge_all_records db ∧
    get_all_records (purge_all_records db) = [] ∧
    purge_all_records_route true s (purge_all_records db) =
      (Response.json true "All records deleted!" Json.null, purge_all_records db) :=
  ⟨rfl, rfl, rfl⟩

/-- Claim C7: the session `user` entry holds `permitted = true` after login
exactly when credential verification succeeded; when it fails, the response is
the `status:false` envelope, the `user` entry is popped, and a subsequent
`admin_check` with that session answers `status:false`. -/
theorem failed_login_clears_session (is_permitted : String → String → Bool)
    (username password : String) (s : SessionUser) :
    ((login_route is_permitted username password s).2 = some ⟨true⟩ ↔
      is_permitted username password = true) ∧
    (is_permitted username password = false →
      login_route is_permitted username password s =
        (Response.json false "Invalid credentials!" Json.null, none) ∧
      check_user_route (login_route is_permitted username password s).2 =
        Response.json false "Log in first!" Json.null) := by
  cases h : is_permitted username password <;>
    simp [login_route, check_user_route, h]

/-- Witness for C7 at a concrete failing verification and a previously
permitted session. -/
theorem failed_login_clears_session_witness :
    (((login_route (fun _ _ => false) "admin" "pw" (some ⟨true⟩)).2 = some ⟨true⟩ ↔
      (fun _ _ => false) "admin" "pw" = true) ∧
    ((fun _ _ => false) "admin" "pw" = false →
      login_route (fun _ _ => false) "admin" "pw" (some ⟨true⟩) =
        (Response.json false "Invalid credentials!" Json.null, none) ∧
      check_user_route (login_route (fun _ _ => false) "admin" "pw" (some ⟨true⟩)).2 =
        Response.json false "Log in first!" Json.null)) :=
  failed_login_clears_session (fun _ _ => false) "admin" "pw" (some ⟨true⟩)

/-- Claim C8: `verify_bearer_token` returns true exactly when Bearer
credentials are present and the credential string equals the configured
`BEARER_TOKEN`, and false for every other input. -/
theorem verify_bearer_token_exact_match_iff
    (credentials : Option HTTPAuthorizationCredentials) (tok : Option String) :
    verify_bearer_token credentials tok = true ↔
      ∃ c, credentials = some c ∧ c.scheme = "Bearer" ∧ tok = some c.credentials := by
  cases credentials with
  | none => simp [verify_bearer_token]
  | some c =>
    constructor
    · intro h
      rw [verify_bearer_token, Bool.and_eq_true, beq_iff_eq, beq_iff_eq] at h
      exact ⟨c, rfl, h.1, h.2.symm⟩
    · rintro ⟨c', hc, hscheme, htok⟩
      injection hc with hc
      subst hc
      rw [verify_bearer_token, Bool.and_eq_true, beq_iff_eq, beq_iff_eq]
      exact ⟨hscheme, htok.symm⟩

/-- Claim C9: logout succeeds with `status:true` for every session (also when
no `user` entry exists), pops the `user` entry, is idempotent, and a
subsequent `admin_check` answers `status:false`. -/
theorem logout_idempotent_invalidates (s : SessionUser) :
    logout_route s = (Response.json true "Logged out!" Json.null, none) ∧
    logout_route (logout_route s).2 = logout_route s ∧
    check_user_route (logout_route s).2 =
      Response.json false "Log in first!" Json.null :=
  ⟨rfl, rfl, rfl⟩

/-- Claim C10: with no Authorization credentials at all,
`verify_bearer_token` returns false for every configured token (it is a total
function, so it cannot raise), and hence never authorizes a guarded
operation. -/
theorem verify_bearer_token_absent_false (tok : Option String) :
    verify_bearer_token none tok = false :=
  rfl

/-- Claim C1 fails on the code: a request with neither a permitted session
nor the correct bearer token is rejected by `change_pass` with the uniform
`status:false` envelope, but the purge route answers with a 302 redirect to
`/login/` — not a JSON envelope at all — contradicting both the claim and the
declared response model of the route. -/
theorem unauthorized_guard_divergence
    (credentials : Option HTTPAuthorizationCredentials) (tok : Option String)
    (s : SessionUser) (db : DB) (new_pass : String) (hash : String → String)
    (hb : verify_bearer_token credentials tok = false)
    (hs : (s.getD ⟨false⟩).permitted = false) :
    change_pass_route hash new_pass (verify_bearer_token credentials tok) s db =
      (Response.json false "Login first!" Json.null, db) ∧
    purge_all_records_route (verify_bearer_token credentials tok) s db =
      (Response.redirect "/login/" 302, db) := by
  rw [hb]
  simp [change_pass_route, purge_all_records_route, hs]

/-- Witness for the C1 divergence: no Authorization header, no session,
empty store. -/
theorem unauthorized_guard_divergence_witness :
    verify_bearer_token none none = false ∧
    ((none : SessionUser).getD ⟨false⟩).permitted = false ∧
    (change_pass_route id "np" (verify_bearer_token none none) none emptyDB =
        (Response.json false "Login first!" Json.null, emptyDB) ∧
      purge_all_records_route (verify_bearer_token none none) none emptyDB =
        (Response.redirect "/login/" 302, emptyDB)) :=
  ⟨rfl, rfl, unauthorized_guard_divergence none none none emptyDB "np" id rfl rfl⟩

end CommentBubble
